import Mathlib

/-!
Verification of the publish_datasource command-line script.

The script parses command-line flags, checks that the connection
username and password are supplied together, prompts for the account
password, signs in to a server, publishes a datasource (optionally as an
asynchronous job, optionally with embedded connection credentials) and
prints the resulting identifier.

We embed the script as pure functions.  The argument parser becomes a
function over token lists modelling the declared argparse options; the
body of main becomes a function from the parsed arguments and an
environment (the password typed at the prompt and the responses of the
external client library) to a trace of observable events together with
an exit status.
-/

namespace PublishDatasource

/-- Python truthiness for an optional-string argparse attribute:
None is falsy, and the empty string is falsy. -/
def pyTruthy : Option String → Bool
  | none => false
  | some s => s != ""

/-- Result of argparse parsing: one field per declared option, with the
defaults applied (required options are guaranteed present). -/
structure Args where
  server : String
  site : Option String
  username : String
  filepath : String
  logging_level : String
  as_job : Bool
  conn_username : Option String
  conn_password : Option String
  conn_embed : Bool
  conn_oauth : Bool
  deriving Repr, DecidableEq

/-- Intermediate parser state: every option starts absent
(store_true options start false), mirroring argparse defaults. -/
structure ParseState where
  server : Option String := none
  site : Option String := none
  username : Option String := none
  filepath : Option String := none
  logging_level : Option String := none
  as_job : Bool := false
  conn_username : Option String := none
  conn_password : Option String := none
  conn_embed : Bool := false
  conn_oauth : Bool := false
  deriving Repr, DecidableEq

/-- The choices declared for the logging-level option. -/
def loggingChoices : List String := ["debug", "info", "error"]

/-- Token-by-token processing of the argument vector, mirroring the
add_argument declarations of the script: value options consume the next
token, store_true options consume none, the logging-level value is
checked against its choices, and an unknown token is a usage error. -/
def parseTokens : List String → ParseState → Except String ParseState
  | [], st => Except.ok st
  | tok :: rest, st =>
    if tok = "--server" || tok = "-s" then
      match rest with
      | v :: rest2 => parseTokens rest2 { st with server := some v }
      | [] => Except.error "argument --server/-s: expected one argument"
    else if tok = "--site" || tok = "-i" then
      match rest with
      | v :: rest2 => parseTokens rest2 { st with site := some v }
      | [] => Except.error "argument --site/-i: expected one argument"
    else if tok = "--username" || tok = "-u" then
      match rest with
      | v :: rest2 => parseTokens rest2 { st with username := some v }
      | [] => Except.error "argument --username/-u: expected one argument"
    else if tok = "--filepath" || tok = "-f" then
      match rest with
      | v :: rest2 => parseTokens rest2 { st with filepath := some v }
      | [] => Except.error "argument --filepath/-f: expected one argument"
    else if tok = "--logging-level" || tok = "-l" then
      match rest with
      | v :: rest2 =>
        if v ∈ loggingChoices then
          parseTokens rest2 { st with logging_level := some v }
        else
          Except.error ("argument --logging-level/-l: invalid choice: " ++ v)
      | [] => Except.error "argument --logging-level/-l: expected one argument"
    else if tok = "--as-job" || tok = "-a" then
      parseTokens rest { st with as_job := true }
    else if tok = "--conn-username" then
      match rest with
      | v :: rest2 => parseTokens rest2 { st with conn_username := some v }
      | [] => Except.error "argument --conn-username: expected one argument"
    else if tok = "--conn-password" then
      match rest with
      | v :: rest2 => parseTokens rest2 { st with conn_password := some v }
      | [] => Except.error "argument --conn-password: expected one argument"
    else if tok = "--conn-embed" then
      parseTokens rest { st with conn_embed := true }
    else if tok = "--conn-oauth" then
      parseTokens rest { st with conn_oauth := true }
    else
      Except.error ("unrecognized arguments: " ++ tok)

/-- parser.parse_args: process the tokens, then enforce the required
options and apply the logging-level default. -/
def parse_args (argv : List String) : Except String Args :=
  match parseTokens argv {} with
  | Except.error m => Except.error m
  | Except.ok st =>
    match st.server, st.username, st.filepath with
    | some s, some u, some f =>
      Except.ok
        { server := s
          site := st.site
          username := u
          filepath := f
          logging_level := st.logging_level.getD "error"
          as_job := st.as_job
          conn_username := st.conn_username
          conn_password := st.conn_password
          conn_embed := st.conn_embed
          conn_oauth := st.conn_oauth }
    | _, _, _ =>
      Except.error "the following arguments are required: --server/-s, --username/-u, --filepath/-f"

/-- TSC.TableauAuth: sign-in credentials. -/
structure TableauAuth where
  username : String
  password : String
  site : Option String
  deriving Repr, DecidableEq

/-- TSC.ConnectionCredentials: the embedded connection credentials.
The name and password fields hold exactly the argparse attribute values
(which in Python may be None), so they are optional strings here. -/
structure ConnectionCredentials where
  name : Option String
  password : Option String
  embed : Bool
  oauth : Bool
  deriving Repr, DecidableEq

/-- TSC.DatasourceItem, reduced to the only field the script sets. -/
structure DatasourceItem where
  project_id : String
  deriving Repr, DecidableEq

/-- TSC.Server.PublishMode. -/
inductive PublishMode where
  | Overwrite
  | Append
  | CreateNew
  deriving Repr, DecidableEq

/-- The full argument list of the server.datasources.publish call. -/
structure PublishRequest where
  datasource : DatasourceItem
  filepath : String
  mode : PublishMode
  connection_credentials : Option ConnectionCredentials
  as_job : Bool
  deriving Repr, DecidableEq

/-- An error raised by the external client library. -/
structure TSCError where
  msg : String
  deriving Repr, DecidableEq

/-- Responses of the outside world: the password typed at the getpass
prompt, the outcome of the sign-in request, and the outcome of the
publish request (the identifier of the created job or datasource, or an
error). -/
structure Env where
  password : String
  signInResult : Except TSCError Unit
  publishResult : Except TSCError String
  deriving Repr

/-- Observable events of a run, in program order. -/
inductive Event where
  | prompt_password
  | configure_logging (level : Nat)
  | sign_in (serverAddress : String) (auth : TableauAuth)
  | publish (req : PublishRequest)
  | print (line : String)
  | sign_out
  deriving Repr, DecidableEq

/-- How the process ends: normal exit, argparse usage-error exit
(exit status 2), or termination by an uncaught library exception
(non-zero exit status). -/
inductive ExitStatus where
  | success
  | usageError (msg : String)
  | exception (e : TSCError)
  deriving Repr, DecidableEq

/-- The outcome of a run: the trace of observable events and the way the
process terminated. -/
structure RunResult where
  events : List Event
  exit : ExitStatus
  deriving Repr, DecidableEq

/-- logging.DEBUG. -/
def logging_DEBUG : Nat := 10

/-- logging.INFO. -/
def logging_INFO : Nat := 20

/-- logging.ERROR. -/
def logging_ERROR : Nat := 40

/-- getattr(logging, name) for the level names the script can produce. -/
def getattrLogging (name : String) : Option Nat :=
  if name = "DEBUG" then some logging_DEBUG
  else if name = "INFO" then some logging_INFO
  else if name = "ERROR" then some logging_ERROR
  else none

/-- str.upper for the ascii level names, mapping character by
character. -/
def pyUpper (s : String) : String :=
  String.mk (s.data.map Char.toUpper)

/-- getattr(logging, args.logging_level.upper()): the numeric level the
script configures. -/
def loggingLevelOf (s : String) : Nat :=
  (getattrLogging (pyUpper s)).getD 0

/-- The body of main after parse_args succeeded: the credential
consistency check, the password prompt, logging configuration, sign-in,
construction of the datasource item and optional connection
credentials, the publish call, and result printing.  The with-block
semantics is explicit: once sign-in succeeds, sign_out is appended on
every way out of the block. -/
def mainBody (args : Args) (env : Env) : RunResult :=
  if (pyTruthy args.conn_username && !pyTruthy args.conn_password)
      || (!pyTruthy args.conn_username && pyTruthy args.conn_password) then
    { events := []
      exit := ExitStatus.usageError "Both the connection username and password must be provided" }
  else
    let logging_level := loggingLevelOf args.logging_level
    let tableau_auth : TableauAuth :=
      { username := args.username, password := env.password, site := args.site }
    let preEvents : List Event :=
      [Event.prompt_password, Event.configure_logging logging_level,
       Event.sign_in args.server tableau_auth]
    match env.signInResult with
    | Except.error e => { events := preEvents, exit := ExitStatus.exception e }
    | Except.ok _ =>
      let new_datasource : DatasourceItem := { project_id := "" }
      let new_conn_creds : Option ConnectionCredentials :=
        if pyTruthy args.conn_username then
          some { name := args.conn_username, password := args.conn_password,
                 embed := args.conn_embed, oauth := args.conn_oauth }
        else
          none
      let publish_mode : PublishMode := PublishMode.Overwrite
      let req : PublishRequest :=
        { datasource := new_datasource, filepath := args.filepath, mode := publish_mode,
          connection_credentials := new_conn_creds, as_job := args.as_job }
      match env.publishResult with
      | Except.error e =>
        { events := preEvents ++ [Event.publish req, Event.sign_out]
          exit := ExitStatus.exception e }
      | Except.ok theId =>
        let line :=
          if args.as_job then
            "Datasource published asynchronously. Job ID: " ++ theId
          else
            "Datasource published. Datasource ID: " ++ theId
        { events := preEvents ++ [Event.publish req, Event.print line, Event.sign_out]
          exit := ExitStatus.success }

/-- The whole script: parse the argument vector (a parse failure is an
argparse usage-error exit before anything else happens), then run the
body of main. -/
def main (argv : List String) (env : Env) : RunResult :=
  match parse_args argv with
  | Except.error m => { events := [], exit := ExitStatus.usageError m }
  | Except.ok args => mainBody args env

/-- The lines the run writes to standard output, in order. -/
def printed (r : RunResult) : List String :=
  r.events.filterMap fun e =>
    match e with
    | Event.print s => some s
    | _ => none

/-- Whether the pattern occurs at the start of the character list. -/
def leadsWith : List Char → List Char → Bool
  | [], _ => true
  | _ :: _, [] => false
  | a :: as, b :: bs => a = b && leadsWith as bs

/-- Whether the pattern occurs contiguously anywhere in the character
list. -/
def occursIn (needle : List Char) : List Char → Bool
  | [] => leadsWith needle []
  | c :: t => leadsWith needle (c :: t) || occursIn needle t

/-- Substring containment on strings. -/
def strContains (hay needle : String) : Bool :=
  occursIn needle.data hay.data

/-! Helper lemmas about the embedding, shared by several results below. -/

lemma check_cond (a b : Bool) : ((a && !b) || (!a && b)) = (a != b) := by
  cases a <;> cases b <;> rfl

lemma mainBody_check_fail (args : Args) (env : Env)
    (h : pyTruthy args.conn_username ≠ pyTruthy args.conn_password) :
    mainBody args env =
      { events := []
        exit := ExitStatus.usageError "Both the connection username and password must be provided" } := by
  have hcond : ((pyTruthy args.conn_username && !pyTruthy args.conn_password)
      || (!pyTruthy args.conn_username && pyTruthy args.conn_password)) = true := by
    rw [check_cond]
    simpa [bne_iff_ne] using h
  simp only [mainBody, hcond, if_true]

lemma mainBody_sign_in_error (args : Args) (env : Env) (e : TSCError)
    (hc : pyTruthy args.conn_username = pyTruthy args.conn_password)
    (hs : env.signInResult = Except.error e) :
    mainBody args env =
      { events := [Event.prompt_password,
                   Event.configure_logging (loggingLevelOf args.logging_level),
                   Event.sign_in args.server
                     { username := args.username, password := env.password, site := args.site }]
        exit := ExitStatus.exception e } := by
  have hcond : ((pyTruthy args.conn_username && !pyTruthy args.conn_password)
      || (!pyTruthy args.conn_username && pyTruthy args.conn_password)) = false := by
    rw [check_cond, bne_eq_false_iff_eq]
    exact hc
  simp only [mainBody, hcond, Bool.false_eq_true, if_false, hs]

lemma mainBody_publish_error (args : Args) (env : Env) (e : TSCError)
    (hc : pyTruthy args.conn_username = pyTruthy args.conn_password)
    (hs : env.signInResult = Except.ok ())
    (hp : env.publishResult = Except.error e) :
    mainBody args env =
      { events := [Event.prompt_password,
                   Event.configure_logging (loggingLevelOf args.logging_level),
                   Event.sign_in args.server
                     { username := args.username, password := env.password, site := args.site },
                   Event.publish
                     { datasource := { project_id := "" }
                       filepath := args.filepath
                       mode := PublishMode.Overwrite
                       connection_credentials :=
                         if pyTruthy args.conn_username then
                           some { name := args.conn_username, password := args.conn_password,
                                  embed := args.conn_embed, oauth := args.conn_oauth }
                         else none
                       as_job := args.as_job },
                   Event.sign_out]
        exit := ExitStatus.exception e } := by
  have hcond : ((pyTruthy args.conn_username && !pyTruthy args.conn_password)
      || (!pyTruthy args.conn_username && pyTruthy args.conn_password)) = false := by
    rw [check_cond, bne_eq_false_iff_eq]
    exact hc
  simp only [mainBody, hcond, Bool.false_eq_true, if_false, hs, hp]
  rfl

lemma mainBody_publish_ok (args : Args) (env : Env) (theId : String)
    (hc : pyTruthy args.conn_username = pyTruthy args.conn_password)
    (hs : env.signInResult = Except.ok ())
    (hp : env.publishResult = Except.ok theId) :
    mainBody args env =
      { events := [Event.prompt_password,
                   Event.configure_logging (loggingLevelOf args.logging_level),
                   Event.sign_in args.server
                     { username := args.username, password := env.password, site := args.site },
                   Event.publish
                     { datasource := { project_id := "" }
                       filepath := args.filepath
                       mode := PublishMode.Overwrite
                       connection_credentials :=
                         if pyTruthy args.conn_username then
                           some { name := args.conn_username, password := args.conn_password,
                                  embed := args.conn_embed, oauth := args.conn_oauth }
                         else none
                       as_job := args.as_job },
                   Event.print
                     (if args.as_job then "Datasource published asynchronously. Job ID: " ++ theId
                      else "Datasource published. Datasource ID: " ++ theId),
                   Event.sign_out]
        exit := ExitStatus.success } := by
  have hcond : ((pyTruthy args.conn_username && !pyTruthy args.conn_password)
      || (!pyTruthy args.conn_username && pyTruthy args.conn_password)) = false := by
    rw [check_cond, bne_eq_false_iff_eq]
    exact hc
  simp only [mainBody, hcond, Bool.false_eq_true, if_false, hs, hp]
  rfl

lemma string_data_append (a b : String) : (a ++ b).data = a.data ++ b.data := rfl

lemma leadsWith_append (n h e : List Char) (hl : leadsWith n h = true) :
    leadsWith n (h ++ e) = true := by
  induction n generalizing h with
  | nil => rfl
  | cons a as ih =>
    cases h with
    | nil => simp [leadsWith] at hl
    | cons b bs =>
      simp only [leadsWith, Bool.and_eq_true] at hl
      simp only [List.cons_append, leadsWith, Bool.and_eq_true]
      exact ⟨hl.1, ih bs hl.2⟩

lemma occursIn_append_left (n h e : List Char) (hl : occursIn n h = true) :
    occursIn n (h ++ e) = true := by
  induction h with
  | nil =>
    cases n with
    | nil =>
      cases e with
      | nil => rfl
      | cons c t => simp [occursIn, leadsWith]
    | cons a as => simp [occursIn, leadsWith] at hl
  | cons c t ih =>
    simp only [occursIn, Bool.or_eq_true] at hl
    simp only [List.cons_append, occursIn, Bool.or_eq_true]
    cases hl with
    | inl hw => exact Or.inl (leadsWith_append _ _ _ hw)
    | inr ho => exact Or.inr (ih ho)

lemma strContains_append_left (a b needle : String)
    (hl : strContains a needle = true) : strContains (a ++ b) needle = true := by
  unfold strContains at hl ⊢
  rw [string_data_append]
  exact occursIn_append_left _ _ _ hl

/-- The logging-level field of the parser state only ever moves to one
of the declared choices (length-indexed induction following the one- or
two-token steps of the parser). -/
lemma parseTokens_choices_aux (n : Nat) :
    ∀ (l : List String) (st st' : ParseState),
      parseTokens l st = Except.ok st' → l.length ≤ n →
      st'.logging_level = st.logging_level ∨
        ∃ v ∈ loggingChoices, st'.logging_level = some v := by
  induction n with
  | zero =>
    intro l st st' h hl
    cases l with
    | nil =>
      injection h with h4
      exact Or.inl (h4 ▸ rfl)
    | cons a b => simp at hl
  | succ n ih =>
    intro l st st' h hl
    cases l with
    | nil =>
      injection h with h4
      exact Or.inl (h4 ▸ rfl)
    | cons tok rest =>
      unfold parseTokens at h
      repeat' split at h
      all_goals first
        | exact Except.noConfusion h
        | (have h5 := ih _ _ _ h (Nat.le_of_succ_le_succ hl)
           exact h5)
        | (have h5 := ih _ _ _ h (Nat.le_of_succ_le (Nat.le_of_succ_le_succ hl))
           exact h5)
        | (rcases ih _ _ _ h (Nat.le_of_succ_le (Nat.le_of_succ_le_succ hl)) with h5 | h6
           · exact Or.inr ⟨_, by assumption, h5⟩
           · exact Or.inr h6)

lemma parseTokens_logging_level_choices (l : List String) (st st' : ParseState)
    (h : parseTokens l st = Except.ok st') :
    st'.logging_level = st.logging_level ∨
      ∃ v ∈ loggingChoices, st'.logging_level = some v :=
  parseTokens_choices_aux l.length l st st' h le_rfl

set_option maxHeartbeats 1000000 in
/-- If neither spelling of the logging-level flag occurs among the
tokens, the logging-level field of the parser state never changes. -/
lemma parseTokens_absent_aux (n : Nat) :
    ∀ (l : List String) (st st' : ParseState),
      parseTokens l st = Except.ok st' → l.length ≤ n →
      "--logging-level" ∉ l → "-l" ∉ l →
      st'.logging_level = st.logging_level := by
  induction n with
  | zero =>
    intro l st st' h hl h1 h2
    cases l with
    | nil =>
      injection h with h4
      exact h4 ▸ rfl
    | cons a b => simp at hl
  | succ n ih =>
    intro l st st' h hl h1 h2
    cases l with
    | nil =>
      injection h with h4
      exact h4 ▸ rfl
    | cons tok rest =>
      have htok1 : tok ≠ "--logging-level" := fun he => h1 (he ▸ List.mem_cons_self _ _)
      have htok2 : tok ≠ "-l" := fun he => h2 (he ▸ List.mem_cons_self _ _)
      unfold parseTokens at h
      repeat' split at h
      all_goals first
        | exact Except.noConfusion h
        | (have h5 := ih _ _ _ h (Nat.le_of_succ_le_succ hl)
             (fun hm => h1 (List.mem_cons_of_mem _ hm))
             (fun hm => h2 (List.mem_cons_of_mem _ hm))
           exact h5)
        | (have h5 := ih _ _ _ h (Nat.le_of_succ_le (Nat.le_of_succ_le_succ hl))
             (fun hm => h1 (List.mem_cons_of_mem _ (List.mem_cons_of_mem _ hm)))
             (fun hm => h2 (List.mem_cons_of_mem _ (List.mem_cons_of_mem _ hm)))
           exact h5)
        | (exfalso
           simp only [Bool.or_eq_true, decide_eq_true_eq] at *
           exact (by assumption : tok = "--logging-level" ∨ tok = "-l").elim htok1 htok2)

lemma parseTokens_logging_level_absent (l : List String) (st st' : ParseState)
    (h1 : "--logging-level" ∉ l) (h2 : "-l" ∉ l)
    (h : parseTokens l st = Except.ok st') :
    st'.logging_level = st.logging_level :=
  parseTokens_absent_aux l.length l st st' h le_rfl h1 h2

lemma main_parse_ok (argv : List String) (env : Env) (args : Args)
    (hp : parse_args argv = Except.ok args) :
    main argv env = mainBody args env := by
  unfold main
  rw [hp]

lemma main_parse_error (argv : List String) (env : Env) (m : String)
    (hp : parse_args argv = Except.error m) :
    main argv env = { events := [], exit := ExitStatus.usageError m } := by
  unfold main
  rw [hp]

/-- Any publish event emitted by the body of main carries the one
request the script builds: empty project id, the filepath argument,
Overwrite mode, the truthiness-gated connection credentials, and the
as-job flag. -/
lemma mainBody_publish_inv (args : Args) (env : Env) (req : PublishRequest)
    (h : Event.publish req ∈ (mainBody args env).events) :
    req = { datasource := { project_id := "" }
            filepath := args.filepath
            mode := PublishMode.Overwrite
            connection_credentials :=
              if pyTruthy args.conn_username then
                some { name := args.conn_username, password := args.conn_password,
                       embed := args.conn_embed, oauth := args.conn_oauth }
              else none
            as_job := args.as_job } := by
  by_cases hc : pyTruthy args.conn_username = pyTruthy args.conn_password
  · cases hs : env.signInResult with
    | error e =>
      rw [mainBody_sign_in_error args env e hc hs] at h
      simp at h
    | ok u =>
      cases u
      cases hpub : env.publishResult with
      | error e =>
        rw [mainBody_publish_error args env e hc hs hpub] at h
        simp at h
        exact h
      | ok theId =>
        rw [mainBody_publish_ok args env theId hc hs hpub] at h
        simp at h
        exact h
  · rw [mainBody_check_fail args env hc] at h
    simp at h

/-- C3: on every run, whatever the argument vector and the environment,
any request passed to the publish operation has an empty project
reference and publish mode Overwrite; no flag can change either
value. -/
theorem publish_request_project_and_mode (argv : List String) (env : Env)
    (req : PublishRequest)
    (h : Event.publish req ∈ (main argv env).events) :
    req.datasource.project_id = "" ∧ req.mode = PublishMode.Overwrite := by
  cases hp : parse_args argv with
  | error m =>
    rw [main_parse_error argv env m hp] at h
    simp at h
  | ok args =>
    rw [main_parse_ok argv env args hp] at h
    rw [mainBody_publish_inv args env req h]
    exact ⟨rfl, rfl⟩

/-- C3 witness: the concrete request published by a plain successful run
has an empty project id and Overwrite mode. -/
theorem publish_request_project_and_mode_witness :
    ({ datasource := { project_id := "" }
       filepath := "ds.tdsx"
       mode := PublishMode.Overwrite
       connection_credentials := none
       as_job := false } : PublishRequest).datasource.project_id = "" ∧
    ({ datasource := { project_id := "" }
       filepath := "ds.tdsx"
       mode := PublishMode.Overwrite
       connection_credentials := none
       as_job := false } : PublishRequest).mode = PublishMode.Overwrite :=
  publish_request_project_and_mode
    ["--server", "srv", "--username", "usr", "--filepath", "ds.tdsx"]
    { password := "pw", signInResult := Except.ok (), publishResult := Except.ok "id1" }
    { datasource := { project_id := "" }
      filepath := "ds.tdsx"
      mode := PublishMode.Overwrite
      connection_credentials := none
      as_job := false }
    (by decide)

/-- C5: on every execution path that establishes an authenticated
session (credential check passed, sign-in succeeded), the trace ends
with the sign-out event — both when the publish call succeeds and when
it raises — the sign-in event sits at position 2 of the trace, and every
publish event occurs strictly after it; so the session is acquired
before the publish call and the process never ends with the session
open. -/
theorem session_scoped (args : Args) (env : Env)
    (hc : pyTruthy args.conn_username = pyTruthy args.conn_password)
    (hs : env.signInResult = Except.ok ()) :
    (mainBody args env).events.getLast? = some Event.sign_out ∧
    (mainBody args env).events.get? 2 =
      some (Event.sign_in args.server
        { username := args.username, password := env.password, site := args.site }) ∧
    (∀ j req, (mainBody args env).events.get? j = some (Event.publish req) → 2 < j) := by
  cases hpub : env.publishResult with
  | error e =>
    rw [mainBody_publish_error args env e hc hs hpub]
    refine ⟨rfl, rfl, ?_⟩
    intro j req hj
    rcases j with _ | _ | _ | j
    · simp [List.get?] at hj
    · simp [List.get?] at hj
    · simp [List.get?] at hj
    · omega
  | ok theId =>
    rw [mainBody_publish_ok args env theId hc hs hpub]
    refine ⟨rfl, rfl, ?_⟩
    intro j req hj
    rcases j with _ | _ | _ | j
    · simp [List.get?] at hj
    · simp [List.get?] at hj
    · simp [List.get?] at hj
    · omega

/-- C5 witness: a concrete established session ends in sign-out, with
the sign-in event at position 2 and all publish events after it. -/
theorem session_scoped_witness :
    (mainBody
        { server := "srv", site := none, username := "usr", filepath := "ds.tdsx"
          logging_level := "error", as_job := false, conn_username := none
          conn_password := none, conn_embed := false, conn_oauth := false }
        { password := "pw", signInResult := Except.ok (),
          publishResult := Except.ok "id1" }).events.getLast? = some Event.sign_out ∧
    (mainBody
        { server := "srv", site := none, username := "usr", filepath := "ds.tdsx"
          logging_level := "error", as_job := false, conn_username := none
          conn_password := none, conn_embed := false, conn_oauth := false }
        { password := "pw", signInResult := Except.ok (),
          publishResult := Except.ok "id1" }).events.get? 2 =
      some (Event.sign_in "srv" { username := "usr", password := "pw", site := none }) ∧
    (∀ j req,
      (mainBody
          { server := "srv", site := none, username := "usr", filepath := "ds.tdsx"
            logging_level := "error", as_job := false, conn_username := none
            conn_password := none, conn_embed := false, conn_oauth := false }
          { password := "pw", signInResult := Except.ok (),
            publishResult := Except.ok "id1" }).events.get? j =
        some (Event.publish req) → 2 < j) :=
  session_scoped
    { server := "srv", site := none, username := "usr", filepath := "ds.tdsx"
      logging_level := "error", as_job := false, conn_username := none
      conn_password := none, conn_embed := false, conn_oauth := false }
    { password := "pw", signInResult := Except.ok (), publishResult := Except.ok "id1" }
    rfl rfl

/-- C6: a sign-in failure, and likewise a publish failure, propagates as
the uncaught library error: the run terminates with that exception
(non-zero status) and nothing is printed, so no success message can
appear. -/
theorem errors_propagate_uncaught (args : Args) (env : Env) (e : TSCError)
    (hc : pyTruthy args.conn_username = pyTruthy args.conn_password)
    (h : env.signInResult = Except.error e ∨
      (env.signInResult = Except.ok () ∧ env.publishResult = Except.error e)) :
    (mainBody args env).exit = ExitStatus.exception e ∧
      printed (mainBody args env) = [] := by
  rcases h with hs | ⟨hs, hpub⟩
  · rw [mainBody_sign_in_error args env e hc hs]
    exact ⟨rfl, rfl⟩
  · rw [mainBody_publish_error args env e hc hs hpub]
    exact ⟨rfl, rfl⟩

/-- C6 witness: a concrete publish failure terminates the run with that
exception and prints nothing. -/
theorem errors_propagate_uncaught_witness :
    (mainBody
        { server := "srv", site := none, username := "usr", filepath := "ds.tdsx"
          logging_level := "error", as_job := false, conn_username := none
          conn_password := none, conn_embed := false, conn_oauth := false }
        { password := "pw", signInResult := Except.ok (),
          publishResult := Except.error { msg := "publish failed" } }).exit =
      ExitStatus.exception { msg := "publish failed" } ∧
    printed
      (mainBody
        { server := "srv", site := none, username := "usr", filepath := "ds.tdsx"
          logging_level := "error", as_job := false, conn_username := none
          conn_password := none, conn_embed := false, conn_oauth := false }
        { password := "pw", signInResult := Except.ok (),
          publishResult := Except.error { msg := "publish failed" } }) = [] :=
  errors_propagate_uncaught
    { server := "srv", site := none, username := "usr", filepath := "ds.tdsx"
      logging_level := "error", as_job := false, conn_username := none
      conn_password := none, conn_embed := false, conn_oauth := false }
    { password := "pw", signInResult := Except.ok (),
      publishResult := Except.error { msg := "publish failed" } }
    { msg := "publish failed" }
    rfl (Or.inr ⟨rfl, rfl⟩)

/-- C9: every run that exits with a usage error — a parse failure or the
connection-credential consistency failure — has an empty trace, so in
particular the account-password prompt was never issued. -/
theorem usage_error_before_prompt (argv : List String) (env : Env) (m : String)
    (h : (main argv env).exit = ExitStatus.usageError m) :
    (main argv env).events = [] ∧
      Event.prompt_password ∉ (main argv env).events := by
  cases hp : parse_args argv with
  | error m2 =>
    rw [main_parse_error argv env m2 hp]
    exact ⟨rfl, by simp⟩
  | ok args =>
    rw [main_parse_ok argv env args hp] at h ⊢
    by_cases hc : pyTruthy args.conn_username = pyTruthy args.conn_password
    · cases hs : env.signInResult with
      | error e =>
        rw [mainBody_sign_in_error args env e hc hs] at h
        exact absurd h (by simp)
      | ok u =>
        cases u
        cases hpub : env.publishResult with
        | error e =>
          rw [mainBody_publish_error args env e hc hs hpub] at h
          exact absurd h (by simp)
        | ok theId =>
          rw [mainBody_publish_ok args env theId hc hs hpub] at h
          exact absurd h (by simp)
    · rw [mainBody_check_fail args env hc]
      exact ⟨rfl, by simp⟩

/-- C9 witness: a run missing the required options exits with the usage
error and an empty trace, never prompting for the password. -/
theorem usage_error_before_prompt_witness :
    (main ["--username", "usr"]
        { password := "pw", signInResult := Except.ok (),
          publishResult := Except.ok "id1" }).events = [] ∧
    Event.prompt_password ∉
      (main ["--username", "usr"]
        { password := "pw", signInResult := Except.ok (),
          publishResult := Except.ok "id1" }).events :=
  usage_error_before_prompt ["--username", "usr"]
    { password := "pw", signInResult := Except.ok (), publishResult := Except.ok "id1" }
    "the following arguments are required: --server/-s, --username/-u, --filepath/-f"
    (by decide)

/-- C10: when neither connection flag is supplied, the conn-embed and
conn-oauth flags have no effect: two runs identical except for those two
flags produce the very same trace and exit status (hence identical
publish requests and output), and the credentials passed to publish are
None. -/
theorem conn_embed_oauth_noninterference (args : Args) (env : Env)
    (e1 o1 e2 o2 : Bool)
    (hu : args.conn_username = none) (hp : args.conn_password = none) :
    mainBody { args with conn_embed := e1, conn_oauth := o1 } env =
      mainBody { args with conn_embed := e2, conn_oauth := o2 } env ∧
    ∀ req,
      Event.publish req ∈
        (mainBody { args with conn_embed := e1, conn_oauth := o1 } env).events →
      req.connection_credentials = none := by
  constructor
  · cases hs : env.signInResult <;> cases hpub : env.publishResult <;>
      simp [mainBody, hu, hp, pyTruthy, hs, hpub]
  · intro req hreq
    have h9 := mainBody_publish_inv _ env req hreq
    rw [h9]
    simp [hu, pyTruthy]

/-- C10 witness: flipping both conn-embed and conn-oauth on a concrete
run without connection credentials changes nothing, and the published
request carries no credentials. -/
theorem conn_embed_oauth_noninterference_witness :
    mainBody
        { server := "srv", site := none, username := "usr", filepath := "ds.tdsx"
          logging_level := "error", as_job := false, conn_username := none
          conn_password := none, conn_embed := true, conn_oauth := true }
        { password := "pw", signInResult := Except.ok (),
          publishResult := Except.ok "id1" } =
      mainBody
        { server := "srv", site := none, username := "usr", filepath := "ds.tdsx"
          logging_level := "error", as_job := false, conn_username := none
          conn_password := none, conn_embed := false, conn_oauth := false }
        { password := "pw", signInResult := Except.ok (),
          publishResult := Except.ok "id1" } ∧
    ∀ req,
      Event.publish req ∈
        (mainBody
          { server := "srv", site := none, username := "usr", filepath := "ds.tdsx"
            logging_level := "error", as_job := false, conn_username := none
            conn_password := none, conn_embed := true, conn_oauth := true }
          { password := "pw", signInResult := Except.ok (),
            publishResult := Except.ok "id1" }).events →
      req.connection_credentials = none :=
  conn_embed_oauth_noninterference
    { server := "srv", site := none, username := "usr", filepath := "ds.tdsx"
      logging_level := "error", as_job := false, conn_username := none
      conn_password := none, conn_embed := false, conn_oauth := false }
    { password := "pw", signInResult := Except.ok (), publishResult := Except.ok "id1" }
    true true false false rfl rfl

/-- C1 counterexample: with conn-username supplied as the empty string
and conn-password not supplied — exactly one of the two flags present in
the argument vector — the run does not exit with a usage error: it runs
to success and issues the publish call (network activity), because the
check tests Python truthiness and the empty string is falsy. -/
theorem conn_flag_mismatch_counterexample :
    parse_args ["--server", "srv", "--username", "usr", "--filepath", "ds.tdsx",
        "--conn-username", ""] =
      Except.ok
        { server := "srv", site := none, username := "usr", filepath := "ds.tdsx"
          logging_level := "error", as_job := false, conn_username := some ""
          conn_password := none, conn_embed := false, conn_oauth := false } ∧
    (main ["--server", "srv", "--username", "usr", "--filepath", "ds.tdsx",
        "--conn-username", ""]
      { password := "pw", signInResult := Except.ok (),
        publishResult := Except.ok "id1" }).exit = ExitStatus.success ∧
    Event.publish
        { datasource := { project_id := "" }
          filepath := "ds.tdsx"
          mode := PublishMode.Overwrite
          connection_credentials := none
          as_job := false } ∈
      (main ["--server", "srv", "--username", "usr", "--filepath", "ds.tdsx",
          "--conn-username", ""]
        { password := "pw", signInResult := Except.ok (),
          publishResult := Except.ok "id1" }).events :=
  ⟨rfl, rfl, by decide⟩

/-- C1 (amended): whenever after parsing exactly one of the connection
username/password values is truthy (supplied and non-empty) — in
particular when one flag is given a non-empty value and the other is
absent — the run exits through the argparse error path with the usage
message and an empty trace: no password prompt, no session, no publish
call. -/
theorem conn_flag_mismatch_usage_error (argv : List String) (env : Env) (args : Args)
    (hp : parse_args argv = Except.ok args)
    (h : pyTruthy args.conn_username ≠ pyTruthy args.conn_password) :
    (main argv env).events = [] ∧
      (main argv env).exit =
        ExitStatus.usageError "Both the connection username and password must be provided" := by
  rw [main_parse_ok argv env args hp, mainBody_check_fail args env h]
  exact ⟨rfl, rfl⟩

/-- C1 witness: supplying only a non-empty conn-username exits with the
usage error before any event. -/
theorem conn_flag_mismatch_usage_error_witness :
    (main ["--server", "srv", "--username", "usr", "--filepath", "ds.tdsx",
        "--conn-username", "cu"]
      { password := "pw", signInResult := Except.ok (),
        publishResult := Except.ok "id1" }).events = [] ∧
    (main ["--server", "srv", "--username", "usr", "--filepath", "ds.tdsx",
        "--conn-username", "cu"]
      { password := "pw", signInResult := Except.ok (),
        publishResult := Except.ok "id1" }).exit =
      ExitStatus.usageError "Both the connection username and password must be provided" :=
  conn_flag_mismatch_usage_error
    ["--server", "srv", "--username", "usr", "--filepath", "ds.tdsx",
      "--conn-username", "cu"]
    { password := "pw", signInResult := Except.ok (), publishResult := Except.ok "id1" }
    { server := "srv", site := none, username := "usr", filepath := "ds.tdsx"
      logging_level := "error", as_job := false, conn_username := some "cu"
      conn_password := none, conn_embed := false, conn_oauth := false }
    rfl (by decide)

/-- C4 counterexample: with both connection flags supplied but both
values empty strings, the run reaches the publish call with connection
credentials None — no credentials record is constructed even though both
flags were supplied. -/
theorem connection_credentials_counterexample :
    parse_args ["--server", "srv", "--username", "usr", "--filepath", "ds.tdsx",
        "--conn-username", "", "--conn-password", ""] =
      Except.ok
        { server := "srv", site := none, username := "usr", filepath := "ds.tdsx"
          logging_level := "error", as_job := false, conn_username := some ""
          conn_password := some "", conn_embed := false, conn_oauth := false } ∧
    (main ["--server", "srv", "--username", "usr", "--filepath", "ds.tdsx",
        "--conn-username", "", "--conn-password", ""]
      { password := "pw", signInResult := Except.ok (),
        publishResult := Except.ok "id1" }).exit = ExitStatus.success ∧
    Event.publish
        { datasource := { project_id := "" }
          filepath := "ds.tdsx"
          mode := PublishMode.Overwrite
          connection_credentials := none
          as_job := false } ∈
      (main ["--server", "srv", "--username", "usr", "--filepath", "ds.tdsx",
          "--conn-username", "", "--conn-password", ""]
        { password := "pw", signInResult := Except.ok (),
          publishResult := Except.ok "id1" }).events :=
  ⟨rfl, rfl, by decide⟩

/-- C4 (amended): when both connection values are supplied and the
username value is non-empty, every request passed to publish carries a
credentials record built from exactly those two values, with embed and
oauth equal to the presence of the corresponding flags; when the
username value is not truthy — absent or the empty string, whatever the
password value — the request carries no credentials record.
(Supplied-but-empty values behave like absent ones, as the
counterexample shows, so presence must be read as truthiness.) -/
theorem connection_credentials_passed (args : Args) (env : Env) (req : PublishRequest)
    (h : Event.publish req ∈ (mainBody args env).events) :
    (∀ u p, args.conn_username = some u → u ≠ "" → args.conn_password = some p →
      req.connection_credentials =
        some { name := some u, password := some p,
               embed := args.conn_embed, oauth := args.conn_oauth }) ∧
    (pyTruthy args.conn_username = false → req.connection_credentials = none) := by
  have h9 := mainBody_publish_inv args env req h
  constructor
  · intro u p hu hne hpw
    rw [h9, hu, hpw]
    simp [pyTruthy, bne_iff_ne, hne]
  · intro hu
    rw [h9, hu]
    rfl

/-- C4 witness: a concrete run with both connection values supplied and
non-empty publishes with exactly that credentials record. -/
theorem connection_credentials_passed_witness :
    ({ datasource := { project_id := "" }
       filepath := "ds.tdsx"
       mode := PublishMode.Overwrite
       connection_credentials :=
         some { name := some "cu", password := some "cp", embed := true, oauth := false }
       as_job := false } : PublishRequest).connection_credentials =
      some { name := some "cu", password := some "cp", embed := true, oauth := false } :=
  (connection_credentials_passed
    { server := "srv", site := none, username := "usr", filepath := "ds.tdsx"
      logging_level := "error", as_job := false, conn_username := some "cu"
      conn_password := some "cp", conn_embed := true, conn_oauth := false }
    { password := "pw", signInResult := Except.ok (), publishResult := Except.ok "id1" }
    { datasource := { project_id := "" }
      filepath := "ds.tdsx"
      mode := PublishMode.Overwrite
      connection_credentials :=
        some { name := some "cu", password := some "cp", embed := true, oauth := false }
      as_job := false }
    (by decide)).1 "cu" "cp" rfl (by decide) rfl

/-- C8: credential presence is decided by string truthiness, not flag
presence: with both flags supplied and the username value empty, the run
raises the usage error when the password value is non-empty, and
silently proceeds — no usage error, the prompt is reached, and the
publish request carries no credentials record — when both values are
empty. -/
theorem truthiness_decides_credentials (args : Args) (env : Env) (p : String)
    (hu : args.conn_username = some "") (hpw : args.conn_password = some p) :
    (p ≠ "" →
      (mainBody args env).exit =
        ExitStatus.usageError "Both the connection username and password must be provided" ∧
      (mainBody args env).events = []) ∧
    (p = "" →
      (∀ m, (mainBody args env).exit ≠ ExitStatus.usageError m) ∧
      Event.prompt_password ∈ (mainBody args env).events ∧
      ∀ req, Event.publish req ∈ (mainBody args env).events →
        req.connection_credentials = none) := by
  constructor
  · intro hne
    have hx : pyTruthy args.conn_username ≠ pyTruthy args.conn_password := by
      have hp2 : pyTruthy (some p) = true := by
        simp [pyTruthy, bne_iff_ne, hne]
      rw [hu, hpw, hp2]
      exact Bool.false_ne_true
    rw [mainBody_check_fail args env hx]
    exact ⟨rfl, rfl⟩
  · intro hpe
    subst hpe
    have hc : pyTruthy args.conn_username = pyTruthy args.conn_password := by
      rw [hu, hpw]
    refine ⟨?_, ?_, ?_⟩
    · intro m
      cases hs : env.signInResult with
      | error e =>
        rw [mainBody_sign_in_error args env e hc hs]
        simp
      | ok u =>
        cases u
        cases hpub : env.publishResult with
        | error e =>
          rw [mainBody_publish_error args env e hc hs hpub]
          simp
        | ok theId =>
          rw [mainBody_publish_ok args env theId hc hs hpub]
          simp
    · cases hs : env.signInResult with
      | error e =>
        rw [mainBody_sign_in_error args env e hc hs]
        simp
      | ok u =>
        cases u
        cases hpub : env.publishResult with
        | error e =>
          rw [mainBody_publish_error args env e hc hs hpub]
          simp
        | ok theId =>
          rw [mainBody_publish_ok args env theId hc hs hpub]
          simp
    · intro req hreq
      rw [mainBody_publish_inv args env req hreq, hu]
      rfl

/-- C8 witness: concretely, username value empty with password value
non-empty raises the usage error, and both values empty proceeds with no
usage error. -/
theorem truthiness_decides_credentials_witness :
    (mainBody
        { server := "srv", site := none, username := "usr", filepath := "ds.tdsx"
          logging_level := "error", as_job := false, conn_username := some ""
          conn_password := some "x", conn_embed := false, conn_oauth := false }
        { password := "pw", signInResult := Except.ok (),
          publishResult := Except.ok "id1" }).exit =
      ExitStatus.usageError "Both the connection username and password must be provided" ∧
    (∀ m,
      (mainBody
        { server := "srv", site := none, username := "usr", filepath := "ds.tdsx"
          logging_level := "error", as_job := false, conn_username := some ""
          conn_password := some "", conn_embed := false, conn_oauth := false }
        { password := "pw", signInResult := Except.ok (),
          publishResult := Except.ok "id1" }).exit ≠ ExitStatus.usageError m) :=
  ⟨((truthiness_decides_credentials
      { server := "srv", site := none, username := "usr", filepath := "ds.tdsx"
        logging_level := "error", as_job := false, conn_username := some ""
        conn_password := some "x", conn_embed := false, conn_oauth := false }
      { password := "pw", signInResult := Except.ok (), publishResult := Except.ok "id1" }
      "x" rfl rfl).1 (by decide)).1,
   ((truthiness_decides_credentials
      { server := "srv", site := none, username := "usr", filepath := "ds.tdsx"
        logging_level := "error", as_job := false, conn_username := some ""
        conn_password := some "", conn_embed := false, conn_oauth := false }
      { password := "pw", signInResult := Except.ok (), publishResult := Except.ok "id1" }
      "" rfl rfl).2 rfl).1⟩

/-- C2 counterexample: a successful asynchronous run whose job id
happens to be the string "Datasource ID: 0" prints a line that does
contain "Datasource ID:", refuting the claimed absence of the
synchronous marker from asynchronous output. -/
theorem success_message_counterexample :
    (main ["--server", "srv", "--username", "usr", "--filepath", "ds.tdsx", "--as-job"]
      { password := "pw", signInResult := Except.ok (),
        publishResult := Except.ok "Datasource ID: 0" }).exit = ExitStatus.success ∧
    printed
      (main ["--server", "srv", "--username", "usr", "--filepath", "ds.tdsx", "--as-job"]
        { password := "pw", signInResult := Except.ok (),
          publishResult := Except.ok "Datasource ID: 0" }) =
      ["Datasource published asynchronously. Job ID: Datasource ID: 0"] ∧
    strContains "Datasource published asynchronously. Job ID: Datasource ID: 0"
      "Datasource ID:" = true :=
  ⟨rfl, rfl, by decide⟩

/-- C2 (amended): on every successful run the printed output is exactly
one line — the asynchronous template applied to the returned id when
as-job was parsed, the synchronous template otherwise — and that line
contains "Job ID:" resp. "Datasource ID:".  The further absence of the
opposite marker claimed by the spec does not hold in general, because
the server-chosen identifier is embedded verbatim in the line (see the
counterexample); absence is only guaranteed when the identifier itself
avoids the marker. -/
theorem success_message (argv : List String) (env : Env)
    (h : (main argv env).exit = ExitStatus.success) :
    ∃ args theId, parse_args argv = Except.ok args ∧
      env.publishResult = Except.ok theId ∧
      printed (main argv env) =
        [if args.as_job then "Datasource published asynchronously. Job ID: " ++ theId
         else "Datasource published. Datasource ID: " ++ theId] ∧
      (args.as_job = true →
        strContains ("Datasource published asynchronously. Job ID: " ++ theId)
          "Job ID:" = true) ∧
      (args.as_job = false →
        strContains ("Datasource published. Datasource ID: " ++ theId)
          "Datasource ID:" = true) := by
  cases hp : parse_args argv with
  | error m =>
    rw [main_parse_error argv env m hp] at h
    exact absurd h (by simp)
  | ok args =>
    rw [main_parse_ok argv env args hp] at h ⊢
    by_cases hc : pyTruthy args.conn_username = pyTruthy args.conn_password
    · cases hs : env.signInResult with
      | error e =>
        rw [mainBody_sign_in_error args env e hc hs] at h
        exact absurd h (by simp)
      | ok u =>
        cases u
        cases hpub : env.publishResult with
        | error e =>
          rw [mainBody_publish_error args env e hc hs hpub] at h
          exact absurd h (by simp)
        | ok theId =>
          refine ⟨args, theId, rfl, rfl, ?_, ?_, ?_⟩
          · rw [mainBody_publish_ok args env theId hc hs hpub]
            rfl
          · intro hj
            exact strContains_append_left _ theId _ (by decide)
          · intro hj
            exact strContains_append_left _ theId _ (by decide)
    · rw [mainBody_check_fail args env hc] at h
      exact absurd h (by simp)

/-- C2 witness: a concrete successful synchronous run prints exactly the
synchronous message containing "Datasource ID:". -/
theorem success_message_witness :
    ∃ args theId,
      parse_args ["--server", "srv", "--username", "usr", "--filepath", "ds.tdsx"] =
        Except.ok args ∧
      ({ password := "pw", signInResult := Except.ok (),
         publishResult := Except.ok "id1" } : Env).publishResult = Except.ok theId ∧
      printed
        (main ["--server", "srv", "--username", "usr", "--filepath", "ds.tdsx"]
          { password := "pw", signInResult := Except.ok (),
            publishResult := Except.ok "id1" }) =
        [if args.as_job then "Datasource published asynchronously. Job ID: " ++ theId
         else "Datasource published. Datasource ID: " ++ theId] ∧
      (args.as_job = true →
        strContains ("Datasource published asynchronously. Job ID: " ++ theId)
          "Job ID:" = true) ∧
      (args.as_job = false →
        strContains ("Datasource published. Datasource ID: " ++ theId)
          "Datasource ID:" = true) :=
  success_message ["--server", "srv", "--username", "usr", "--filepath", "ds.tdsx"]
    { password := "pw", signInResult := Except.ok (), publishResult := Except.ok "id1" }
    rfl

/-- parse_args inversion: a successful parse comes from a successful
token pass, and the logging level of the result is the parsed value with
the "error" default applied. -/
lemma parse_args_inv (argv : List String) (args : Args)
    (hp : parse_args argv = Except.ok args) :
    ∃ st, parseTokens argv {} = Except.ok st ∧
      args.logging_level = st.logging_level.getD "error" := by
  unfold parse_args at hp
  cases hq : parseTokens argv ({} : ParseState) with
  | error m =>
    rw [hq] at hp
    exact absurd hp (by simp)
  | ok st =>
    rw [hq] at hp
    refine ⟨st, rfl, ?_⟩
    split at hp
    · rename_i heq
      exact absurd heq (by simp)
    · rename_i st2 heq
      injection heq with heq2
      subst heq2
      split at hp
      · injection hp with hp2
        rw [← hp2]
      all_goals exact absurd hp (by simp)

/-- C7: the configured logging level strictly follows the flag: a
successful parse always carries one of the declared choices (so any
other value is rejected by the parser), the level defaults to "error"
when neither spelling of the flag appears in the argument vector, every
configure-logging event carries getattr(logging, level.upper()), the
three names map to the standard numeric levels, and a non-choice value
after the flag is an immediate parse error. -/
theorem logging_level_follows_flag (argv : List String) (args : Args) (env : Env)
    (hp : parse_args argv = Except.ok args) :
    args.logging_level ∈ loggingChoices ∧
    (("--logging-level" ∉ argv ∧ "-l" ∉ argv) → args.logging_level = "error") ∧
    (∀ lv, Event.configure_logging lv ∈ (mainBody args env).events →
      lv = loggingLevelOf args.logging_level) ∧
    loggingLevelOf "debug" = logging_DEBUG ∧
    loggingLevelOf "info" = logging_INFO ∧
    loggingLevelOf "error" = logging_ERROR ∧
    (∀ st v rest, v ∉ loggingChoices →
      parseTokens ("--logging-level" :: v :: rest) st =
        Except.error ("argument --logging-level/-l: invalid choice: " ++ v)) := by
  obtain ⟨st, hq, hll⟩ := parse_args_inv argv args hp
  refine ⟨?_, ?_, ?_, rfl, rfl, rfl, ?_⟩
  · rcases parseTokens_logging_level_choices argv _ st hq with h0 | ⟨v, hv, h0⟩
    · rw [hll, h0]
      simp [loggingChoices]
    · rw [hll, h0]
      simpa using hv
  · rintro ⟨h1, h2⟩
    rw [hll, parseTokens_logging_level_absent argv _ st h1 h2 hq]
    rfl
  · intro lv hm
    by_cases hc : pyTruthy args.conn_username = pyTruthy args.conn_password
    · cases hs : env.signInResult with
      | error e =>
        rw [mainBody_sign_in_error args env e hc hs] at hm
        simp at hm
        exact hm
      | ok u =>
        cases u
        cases hpub : env.publishResult with
        | error e =>
          rw [mainBody_publish_error args env e hc hs hpub] at hm
          simp at hm
          exact hm
        | ok theId =>
          rw [mainBody_publish_ok args env theId hc hs hpub] at hm
          simp at hm
          exact hm
    · rw [mainBody_check_fail args env hc] at hm
      simp at hm
  · intro st2 v rest hv
    have hstep : parseTokens ("--logging-level" :: v :: rest) st2 =
        if v ∈ loggingChoices then
          parseTokens rest { st2 with logging_level := some v }
        else
          Except.error ("argument --logging-level/-l: invalid choice: " ++ v) := rfl
    rw [hstep, if_neg hv]

/-- C7 witness: a run without the logging flag parses to the "error"
default, configures level 40, and the parser step rejects a non-choice
value. -/
theorem logging_level_follows_flag_witness :
    ("error" : String) ∈ loggingChoices ∧
    (("--logging-level" ∉ ["--server", "srv", "--username", "usr", "--filepath", "ds.tdsx"] ∧
      "-l" ∉ ["--server", "srv", "--username", "usr", "--filepath", "ds.tdsx"]) →
      ("error" : String) = "error") ∧
    (∀ lv,
      Event.configure_logging lv ∈
        (mainBody
          { server := "srv", site := none, username := "usr", filepath := "ds.tdsx"
            logging_level := "error", as_job := false, conn_username := none
            conn_password := none, conn_embed := false, conn_oauth := false }
          { password := "pw", signInResult := Except.ok (),
            publishResult := Except.ok "id1" }).events →
      lv = loggingLevelOf "error") ∧
    loggingLevelOf "debug" = logging_DEBUG ∧
    loggingLevelOf "info" = logging_INFO ∧
    loggingLevelOf "error" = logging_ERROR ∧
    (∀ st v rest, v ∉ loggingChoices →
      parseTokens ("--logging-level" :: v :: rest) st =
        Except.error ("argument --logging-level/-l: invalid choice: " ++ v)) :=
  logging_level_follows_flag
    ["--server", "srv", "--username", "usr", "--filepath", "ds.tdsx"]
    { server := "srv", site := none, username := "usr", filepath := "ds.tdsx"
      logging_level := "error", as_job := false, conn_username := none
      conn_password := none, conn_embed := false, conn_oauth := false }
    { password := "pw", signInResult := Except.ok (), publishResult := Except.ok "id1" }
    rfl

end PublishDatasource
